import Mathlib

/-!
Verification of the fortunebot command-line tool (cmd/fortunebot/main.go)
against its natural-language specification.

The Go program is shallowly embedded: file contents become explicit values
(the cache file is an `Option FortuneCache`, where `none` covers a missing,
unreadable or unparseable file; the log file is an `Option String` holding the
raw text), the process environment becomes an `Env` record, the network
exchange performed by `generateFortune` becomes a `NetOutcome` oracle, and the
pseudo-random index drawn by `rand.Intn` becomes a `pick` parameter reduced
modulo the number of entries.  Clock readings are split into whole epoch
seconds (`nowSec`, what `time.Now().Unix()` stores) and a sub-second
nanosecond remainder (`frac`), because `cacheIsFresh` compares durations at
nanosecond precision while all stored timestamps are whole seconds.

String processing is embedded on `List Char` (structurally recursive, so the
kernel can evaluate it): `trimChars` models Go's `strings.TrimSpace`,
`splitListOn` models `strings.Split` with a one-character separator, and
`splitOnce` models `strings.SplitN(s, sep, 2)`.  JSON (de)serialisation of the
cache record is modelled at the record level: a well-formed stored record
round-trips through `encoding/json` unchanged, and a file that fails to read
or parse is the `none` case.
-/

namespace Fortunebot

/-! ## Character-list string utilities -/

/-- Whitespace test used by `strings.TrimSpace` (our inputs are ASCII, so the
space, tab, newline and carriage-return cases suffice). -/
def isSpaceChar (c : Char) : Bool :=
  c = ' ' || c = '\t' || c = '\n' || c = '\r'

/-- Model of Go `strings.TrimSpace` on the character list of a string. -/
def trimChars (cs : List Char) : List Char :=
  ((cs.dropWhile isSpaceChar).reverse.dropWhile isSpaceChar).reverse

/-- A string is blank when `strings.TrimSpace` leaves nothing. -/
def isBlank (s : String) : Bool :=
  (trimChars s.data).isEmpty

/-- Model of Go `strings.Split` with a one-character separator. -/
def splitListOn (sep : Char) : List Char → List (List Char)
  | [] => [[]]
  | c :: cs =>
    if c = sep then
      [] :: splitListOn sep cs
    else
      match splitListOn sep cs with
      | r :: rs => (c :: r) :: rs
      | [] => [[c]]

/-- Model of Go `strings.SplitN(line, sep, 2)`: `none` when the separator does
not occur (Go returns a one-element slice), otherwise the parts before and
after the first occurrence. -/
def splitOnce (sep : Char) : List Char → Option (List Char × List Char)
  | [] => none
  | c :: cs =>
    if c = sep then
      some ([], cs)
    else
      match splitOnce sep cs with
      | some (a, b) => some (c :: a, b)
      | none => none

/-! ## Data model (main.go constants and record types) -/

/-- Built-in default prompt (main.go `defaultPrompt`). -/
def defaultPrompt : String :=
  "Generate a very short, funny fortune cookie message about AI, programmers, or neural networks. Maximum 2 short sentences."

/-- Built-in default model (main.go `defaultModel`). -/
def defaultModel : String := "gpt-4o-mini"

/-- Default cache TTL in seconds (main.go `cacheTTLDefault`). -/
def cacheTTLDefault : Int := 60

/-- Nanoseconds per second; `time.Duration` arithmetic is in nanoseconds. -/
def nsPerSecond : Int := 1000000000

/-- The JSON config file (main.go `config`); a missing JSON field unmarshals
to the empty string, so plain `String` fields suffice. -/
structure Config where
  apiKey : String := ""
  defaultPrompt : String := ""
  model : String := ""
  deriving Repr, DecidableEq

/-- The cache record (main.go `fortuneCache`); the stored timestamp is whole
epoch seconds (Go stores `float64(time.Now().Unix())`). -/
structure FortuneCache where
  fortune : String
  timestamp : Int
  deriving Repr, DecidableEq

/-- The environment variables the program reads; an unset variable is the
empty string, exactly as `os.Getenv` reports it. -/
structure Env where
  fortunebotApiKey : String := ""
  openaiApiKey : String := ""
  fortunebotModel : String := ""
  openaiModel : String := ""
  fortunebotPrompt : String := ""
  deriving Repr, DecidableEq

/-- The all-unset environment. -/
def emptyEnv : Env := {}

/-! ## Config loading and resolution (main.go lines 127-191) -/

/-- Model of `loadConfig`: a missing or unparseable file (`none`) yields the
built-in defaults; otherwise empty prompt/model fields are backfilled with the
built-in defaults.  The API key is never backfilled. -/
def loadConfig (file : Option Config) : Config :=
  match file with
  | none => { apiKey := "", defaultPrompt := defaultPrompt, model := defaultModel }
  | some c =>
    { apiKey := c.apiKey
      defaultPrompt := if c.defaultPrompt = "" then defaultPrompt else c.defaultPrompt
      model := if c.model = "" then defaultModel else c.model }

/-- Model of `resolveAPIKeyWithSource`. -/
def resolveAPIKeyWithSource (cli : String) (env : Env) (cfg : Config) : String × String :=
  if !isBlank cli then (cli, "--api-key flag")
  else if env.fortunebotApiKey ≠ "" then (env.fortunebotApiKey, "env FORTUNEBOT_API_KEY")
  else if env.openaiApiKey ≠ "" then (env.openaiApiKey, "env OPENAI_API_KEY")
  else if !isBlank cfg.apiKey then (cfg.apiKey, "~/.config/fortunebot/config.json")
  else ("", "none found")

/-- Model of `resolveModelWithSource`. -/
def resolveModelWithSource (cli : String) (env : Env) (cfg : Config) : String × String :=
  if !isBlank cli then (cli, "--model flag")
  else if env.fortunebotModel ≠ "" then (env.fortunebotModel, "env FORTUNEBOT_MODEL")
  else if env.openaiModel ≠ "" then (env.openaiModel, "env OPENAI_MODEL")
  else if !isBlank cfg.model then (cfg.model, "~/.config/fortunebot/config.json")
  else (defaultModel, "built-in default")

/-- Model of `resolvePromptWithSource`. -/
def resolvePromptWithSource (cli : String) (env : Env) (cfg : Config) : String × String :=
  if !isBlank cli then (cli, "--prompt flag")
  else if env.fortunebotPrompt ≠ "" then (env.fortunebotPrompt, "env FORTUNEBOT_PROMPT")
  else if !isBlank cfg.defaultPrompt then (cfg.defaultPrompt, "~/.config/fortunebot/config.json")
  else (defaultPrompt, "built-in default")

/-! ## Claim-level resolution (spec §4.1 precedence, for comparison)

The spec describes resolution directly from the four raw sources, with the
built-in default as an explicit final step carrying provenance "built-in
default".  These definitions follow the spec's words; the theorems below
compare them with the composition `resolve*WithSource ∘ loadConfig` that the
program actually runs. -/

/-- Spec-level API-key resolution: flag, primary env, secondary env, config
file, else empty with provenance "none found". -/
def resolveAPIKeySpec (cli : String) (env : Env) (cfgFile : Option Config) : String × String :=
  if !isBlank cli then (cli, "--api-key flag")
  else if env.fortunebotApiKey ≠ "" then (env.fortunebotApiKey, "env FORTUNEBOT_API_KEY")
  else if env.openaiApiKey ≠ "" then (env.openaiApiKey, "env OPENAI_API_KEY")
  else
    match cfgFile with
    | some c =>
      if !isBlank c.apiKey then (c.apiKey, "~/.config/fortunebot/config.json")
      else ("", "none found")
    | none => ("", "none found")

/-- Spec-level model resolution: flag, primary env, secondary env, config
file, else the built-in default with provenance "built-in default". -/
def resolveModelSpec (cli : String) (env : Env) (cfgFile : Option Config) : String × String :=
  if !isBlank cli then (cli, "--model flag")
  else if env.fortunebotModel ≠ "" then (env.fortunebotModel, "env FORTUNEBOT_MODEL")
  else if env.openaiModel ≠ "" then (env.openaiModel, "env OPENAI_MODEL")
  else
    match cfgFile with
    | some c =>
      if !isBlank c.model then (c.model, "~/.config/fortunebot/config.json")
      else (defaultModel, "built-in default")
    | none => (defaultModel, "built-in default")

/-- Spec-level prompt resolution: flag, env, config file, else the built-in
default with provenance "built-in default". -/
def resolvePromptSpec (cli : String) (env : Env) (cfgFile : Option Config) : String × String :=
  if !isBlank cli then (cli, "--prompt flag")
  else if env.fortunebotPrompt ≠ "" then (env.fortunebotPrompt, "env FORTUNEBOT_PROMPT")
  else
    match cfgFile with
    | some c =>
      if !isBlank c.defaultPrompt then (c.defaultPrompt, "~/.config/fortunebot/config.json")
      else (defaultPrompt, "built-in default")
    | none => (defaultPrompt, "built-in default")

/-! ## Cache store and log store (main.go lines 193-263) -/

/-- Model of `isErrorFortune`: the trimmed text starts with the reserved
sentinel tag. -/
def isErrorFortune (s : String) : Bool :=
  "[fortunebot]".data.isPrefixOf (trimChars s.data)

/-- Model of `loadCache`: the argument is the parsed cache file (`none` for a
missing, unreadable or unparseable file); a stored record whose fortune is
error-tagged is rejected just like a read failure. -/
def loadCache (file : Option FortuneCache) : Option FortuneCache :=
  match file with
  | none => none
  | some c => if isErrorFortune c.fortune then none else some c

/-- Model of `saveCache`: a no-op on error-tagged text, otherwise overwrites
the cache file with the fortune stamped at the current epoch second. -/
def saveCache (f : String) (nowSec : Int) (file : Option FortuneCache) : Option FortuneCache :=
  if isErrorFortune f then file else some { fortune := f, timestamp := nowSec }

/-- Model of `cacheIsFresh`: `time.Since` subtracts the stored whole-second
timestamp from the nanosecond-precision current instant `nowNs`, and the age
is compared against `ttl` seconds in nanoseconds. -/
def cacheIsFresh (c : FortuneCache) (ttl : Int) (nowNs : Int) : Bool :=
  nowNs - c.timestamp * nsPerSecond < ttl * nsPerSecond

/-- Model of `logFortune`: a no-op on error-tagged text, otherwise appends one
line `"<epochSeconds>\t<fortune>\n"` to the log file, creating it if absent. -/
def logFortune (f : String) (nowSec : Int) (log : Option String) : Option String :=
  if isErrorFortune f then log
  else some ((log.getD "") ++ toString nowSec ++ "\t" ++ f ++ "\n")

/-- Parsing step of `randomFortuneFromLog`: split the raw log text into lines,
keep the lines containing a tab, and take the trimmed text after the first
tab of each. -/
def parseLogFortunes (content : String) : List String :=
  (splitListOn '\n' content.data).filterMap fun line =>
    match splitOnce '\t' line with
    | some (_, rest) => some ⟨trimChars rest⟩
    | none => none

/-- Model of `randomFortuneFromLog`: fails when the log file is absent or
yields no parseable entry; otherwise returns the entry at the random index
(`rand.Intn` is modelled by `pick` taken modulo the number of entries). -/
def randomFortuneFromLog (log : Option String) (pick : Nat) : Except String String :=
  match log with
  | none => .error "failed to read log"
  | some content =>
    let fortunes := parseLogFortunes content
    if h : fortunes = [] then .error "no fortunes found in log"
    else .ok (fortunes.get ⟨pick % fortunes.length, Nat.mod_lt _ (List.length_pos.mpr h)⟩)

/-! ## Generation client (main.go `generateFortune`, lines 275-335) -/

/-- Everything `generateFortune` observes after its API-key guard, decided by
the outside world: either the HTTP exchange fails (transport error, the 15 s
timeout, or a response body that is not valid JSON), or a response arrives
with a status code, a raw body, and the text the fixed extraction rule yields
(first structured output entry, else the flat `output_text` field; the empty
string when both are absent). -/
inductive NetOutcome where
  | failure (msg : String)
  | response (status : Nat) (body : String) (extracted : String)
  deriving Repr, DecidableEq

/-- Model of `generateFortune`.  Returns the fortune or the error message,
paired with whether a network call was made.  A blank key aborts before any
network activity; a status of 300 or more is an API error; blank extracted
text is an empty response; otherwise the trimmed text is returned behind the
fixed visual marker. -/
def generateFortune (prompt apiKey model : String) (net : NetOutcome) :
    Except String String × Bool :=
  let _ := prompt
  let _ := model
  if apiKey = "" then (.error "no API key provided", false)
  else
    match net with
    | .failure msg => (.error msg, true)
    | .response status body extracted =>
      if 300 ≤ status then
        (.error ("API error (" ++ toString status ++ "): " ++ body), true)
      else
        let fortune : String := ⟨trimChars extracted.data⟩
        if fortune = "" then (.error "empty response from API", true)
        else (.ok ("🤖 " ++ fortune), true)

/-! ## Prefetch orchestrator (main.go `main`, `runPrefetchWorker`) -/

/-- The CLI flags relevant to normal mode, with their Go defaults. -/
structure Flags where
  prompt : String := ""
  apiKey : String := ""
  model : String := ""
  cacheTTL : Int := cacheTTLDefault
  noCache : Bool := false
  clearCache : Bool := false
  noPrefetch : Bool := false
  deriving Repr, DecidableEq

/-- The on-disk state the program touches: the cache file (parsed view) and
the log file (raw text); `none` is an absent or unreadable file. -/
structure World where
  cacheFile : Option FortuneCache
  logFile : Option String
  deriving Repr, DecidableEq

/-- Arguments handed to a spawned background worker by `startPrefetch`. -/
structure Spawn where
  prompt : String
  apiKey : String
  model : String
  deriving Repr, DecidableEq

/-- Observable outcome of one normal-mode run: exit status, the fortune
printed to stdout (if any), the error reported to stderr (if any), the final
on-disk state, the worker spawned (if any), whether the foreground invoked
`generateFortune`, whether a network call was made, and — diagnostics only —
whether a cache hit was reported fresh (`some true`) or stale (`some false`)
by the verbose messages. -/
structure RunResult where
  exitCode : Nat
  stdoutFortune : Option String
  errored : Option String
  world : World
  spawned : Option Spawn
  syncFetch : Bool
  netCall : Bool
  servedFresh : Option Bool
  deriving Repr, DecidableEq

/-- Model of the `if !*flagNoPrefetch { startPrefetch(...) }` guard. -/
def prefetchSpawn (fl : Flags) (prompt apiKey model : String) : Option Spawn :=
  if fl.noPrefetch then none else some ⟨prompt, apiKey, model⟩

/-- Model of normal mode (main.go lines 463-528).  `nowSec` is the whole
epoch second `time.Now().Unix()` would report and `frac` the sub-second
nanosecond remainder of the instant `time.Since` subtracts from; `net` is the
network oracle consulted if a synchronous fetch happens.  Mirrors the source:
optional cache clear, resolution, the `caching` guard, the cache hit path
(fresh and stale branches printing and spawning identically), and the shared
fetch path that logs, prints, and — only when caching is enabled — saves and
spawns. -/
def runNormalMode (fl : Flags) (env : Env) (cfgFile : Option Config)
    (w : World) (nowSec frac : Int) (net : NetOutcome) : RunResult :=
  let cfg := loadConfig cfgFile
  let w0 : World := { cacheFile := if fl.clearCache then none else w.cacheFile,
                      logFile := w.logFile }
  let prompt := (resolvePromptWithSource fl.prompt env cfg).1
  let apiKey := (resolveAPIKeyWithSource fl.apiKey env cfg).1
  let model := (resolveModelWithSource fl.model env cfg).1
  let caching := !fl.noCache && decide (0 < fl.cacheTTL)
  let fetchPath : RunResult :=
    match generateFortune prompt apiKey model net with
    | (.error e, called) =>
      { exitCode := 1, stdoutFortune := none, errored := some e, world := w0,
        spawned := none, syncFetch := true, netCall := called, servedFresh := none }
    | (.ok fortune, called) =>
      let w1 : World := { w0 with logFile := logFortune fortune nowSec w0.logFile }
      if caching then
        { exitCode := 0, stdoutFortune := some fortune, errored := none,
          world := { w1 with cacheFile := saveCache fortune nowSec w1.cacheFile },
          spawned := prefetchSpawn fl prompt apiKey model,
          syncFetch := true, netCall := called, servedFresh := none }
      else
        { exitCode := 0, stdoutFortune := some fortune, errored := none,
          world := w1, spawned := none,
          syncFetch := true, netCall := called, servedFresh := none }
  if caching then
    match loadCache w0.cacheFile with
    | some cache =>
      if cacheIsFresh cache fl.cacheTTL (nowSec * nsPerSecond + frac) then
        { exitCode := 0, stdoutFortune := some cache.fortune, errored := none,
          world := w0, spawned := prefetchSpawn fl prompt apiKey model,
          syncFetch := false, netCall := false, servedFresh := some true }
      else
        { exitCode := 0, stdoutFortune := some cache.fortune, errored := none,
          world := w0, spawned := prefetchSpawn fl prompt apiKey model,
          syncFetch := false, netCall := false, servedFresh := some false }
    | none => fetchPath
  else fetchPath

/-- Model of `runPrefetchWorker` (main.go lines 365-378): one fetch, then on
success one log append and one cache save; the exit status is returned with
the final on-disk state. -/
def runPrefetchWorker (prompt apiKey model : String) (nowSec : Int)
    (net : NetOutcome) (w : World) : Nat × World :=
  match generateFortune prompt apiKey model net with
  | (.error _, _) => (1, w)
  | (.ok fortune, _) =>
    let w1 : World := { w with logFile := logFortune fortune nowSec w.logFile }
    (0, { w1 with cacheFile := saveCache fortune nowSec w1.cacheFile })

/-- Model of log-random mode (main.go lines 450-461): exit 1 with nothing
printed when sampling fails, else print the sampled fortune and exit 0. -/
def runLogRandomMode (log : Option String) (pick : Nat) : Nat × Option String :=
  match randomFortuneFromLog log pick with
  | .error _ => (1, none)
  | .ok f => (0, some f)

/-! ## Shared helper lemmas -/

/-- The built-in default prompt is not blank. -/
theorem defaultPrompt_not_blank : isBlank defaultPrompt = false := by decide

/-- The built-in default model is not blank. -/
theorem defaultModel_not_blank : isBlank defaultModel = false := by decide

/-- The empty string is blank. -/
theorem isBlank_empty : isBlank "" = true := by decide

/-! ## Claim C4 -/

/-- Claim C4: for every TTL `t > 0`, a cache entry is fresh exactly when its
age in whole seconds (current epoch second minus stored timestamp) is
strictly below `t`; at age `= t` the entry is stale.  The current instant is
`nowSec` seconds plus a sub-second remainder `frac` of nanoseconds. -/
theorem cacheIsFresh_iff_age_lt_ttl (c : FortuneCache) (ttl nowSec frac : Int)
    (_httl : 0 < ttl) (hlo : 0 ≤ frac) (hhi : frac < nsPerSecond) :
    cacheIsFresh c ttl (nowSec * nsPerSecond + frac) = true ↔ nowSec - c.timestamp < ttl := by
  simp only [cacheIsFresh, nsPerSecond, decide_eq_true_eq] at *
  omega

/-- Witness for C4: a 20-second-old entry against a 60-second TTL, observed
5 ns past the second boundary, is fresh. -/
theorem cacheIsFresh_iff_age_lt_ttl_witness :
    cacheIsFresh ⟨"f", 100⟩ 60 (120 * nsPerSecond + 5) = true ↔ (120 : Int) - 100 < 60 :=
  cacheIsFresh_iff_age_lt_ttl ⟨"f", 100⟩ 60 120 5 (by decide) (by decide) (by decide)

/-! ## Claim C5 -/

/-- Claim C5: error-tagged strings are excluded from durable state at both
boundaries: saving or logging one leaves the respective file untouched, and a
stored cache record with error-tagged text loads as not-found, exactly like a
missing file. -/
theorem errorTagged_never_persisted (f : String) (c : FortuneCache) (nowSec ts : Int)
    (file : Option FortuneCache) (log : Option String)
    (hf : isErrorFortune f = true) (hc : isErrorFortune c.fortune = true) :
    saveCache f nowSec file = file ∧ logFortune f ts log = log ∧
    loadCache (some c) = none ∧ loadCache (none : Option FortuneCache) = none := by
  refine ⟨?_, ?_, ?_, rfl⟩ <;> simp [saveCache, logFortune, loadCache, hf, hc]

/-- Witness for C5 at a concrete error-tagged fortune and cache record. -/
theorem errorTagged_never_persisted_witness :
    saveCache "[fortunebot] boom" 1 (some ⟨"x", 0⟩) = some ⟨"x", 0⟩ ∧
    logFortune "[fortunebot] boom" 2 (some "old\n") = some "old\n" ∧
    loadCache (some ⟨"  [fortunebot] err", 3⟩) = none ∧
    loadCache (none : Option FortuneCache) = none :=
  errorTagged_never_persisted "[fortunebot] boom" ⟨"  [fortunebot] err", 3⟩ 1 2
    (some ⟨"x", 0⟩) (some "old\n") (by decide) (by decide)

/-! ## Claim C9 -/

/-- Claim C9: for any non-error-tagged fortune, saving and then loading the
cache returns a record whose text is exactly the saved string; and a record
saved at second `nowSec` is still fresh when observed within the TTL window
(here: within the same second, for any TTL `> 0`). -/
theorem saveCache_loadCache_roundTrip (f : String) (nowSec ttl frac : Int)
    (file : Option FortuneCache) (hf : isErrorFortune f = false)
    (httl : 0 < ttl) (hlo : 0 ≤ frac) (hhi : frac < nsPerSecond) :
    loadCache (saveCache f nowSec file) = some ⟨f, nowSec⟩ ∧
    cacheIsFresh ⟨f, nowSec⟩ ttl (nowSec * nsPerSecond + frac) = true := by
  constructor
  · simp [saveCache, loadCache, hf]
  · simp only [cacheIsFresh, nsPerSecond, decide_eq_true_eq] at *
    omega

/-- Witness for C9 at the fortune "lucky". -/
theorem saveCache_loadCache_roundTrip_witness :
    loadCache (saveCache "lucky" 10 (none : Option FortuneCache)) = some ⟨"lucky", 10⟩ ∧
    cacheIsFresh ⟨"lucky", 10⟩ 60 (10 * nsPerSecond + 0) = true :=
  saveCache_loadCache_roundTrip "lucky" 10 60 0 none (by decide) (by decide) (by decide) (by decide)

/-! ## Claim C10 -/

/-- Claim C10: a cache entry whose stored timestamp lies strictly in the
future of the current instant (negative age) is reported fresh by
`cacheIsFresh` for every TTL `> 0`; consequently a normal-mode run with
caching enabled that loads such an entry serves it as fresh, never invoking
the generation client synchronously or over the network. -/
theorem futureTimestamp_always_fresh :
    (∀ (c : FortuneCache) (ttl nowNs : Int), 0 < ttl →
      nowNs < c.timestamp * nsPerSecond → cacheIsFresh c ttl nowNs = true) ∧
    (∀ (fl : Flags) (env : Env) (cfgFile : Option Config) (w : World)
      (nowSec frac : Int) (net : NetOutcome) (c : FortuneCache),
      fl.noCache = false → 0 < fl.cacheTTL →
      loadCache (if fl.clearCache then none else w.cacheFile) = some c →
      nowSec * nsPerSecond + frac < c.timestamp * nsPerSecond →
      (runNormalMode fl env cfgFile w nowSec frac net).servedFresh = some true ∧
      (runNormalMode fl env cfgFile w nowSec frac net).syncFetch = false ∧
      (runNormalMode fl env cfgFile w nowSec frac net).netCall = false ∧
      (runNormalMode fl env cfgFile w nowSec frac net).stdoutFortune = some c.fortune) := by
  have hfresh : ∀ (c : FortuneCache) (ttl nowNs : Int), 0 < ttl →
      nowNs < c.timestamp * nsPerSecond → cacheIsFresh c ttl nowNs = true := by
    intro c ttl nowNs httl hfut
    simp only [cacheIsFresh, nsPerSecond, decide_eq_true_eq] at *
    omega
  refine ⟨hfresh, ?_⟩
  intro fl env cfgFile w nowSec frac net c hnc httl hload hfut
  have hc : (!fl.noCache && decide (0 < fl.cacheTTL)) = true := by
    simp [hnc, httl]
  have hf : cacheIsFresh c fl.cacheTTL (nowSec * nsPerSecond + frac) = true :=
    hfresh c fl.cacheTTL _ httl hfut
  simp [runNormalMode, hc, hload, hf]

/-- Witness for C10: an entry stamped 1000 s in the future of a run at epoch
second 5000 is served fresh with a 60 s TTL. -/
theorem futureTimestamp_always_fresh_witness :
    cacheIsFresh ⟨"soon", 6000⟩ 60 (5000 * nsPerSecond) = true ∧
    (runNormalMode {} emptyEnv none ⟨some ⟨"soon", 6000⟩, none⟩ 5000 0 (.failure "x")).servedFresh
      = some true :=
  ⟨futureTimestamp_always_fresh.1 ⟨"soon", 6000⟩ 60 (5000 * nsPerSecond) (by decide) (by decide),
   (futureTimestamp_always_fresh.2 {} emptyEnv none ⟨some ⟨"soon", 6000⟩, none⟩ 5000 0
      (.failure "x") ⟨"soon", 6000⟩ rfl (by decide) (by decide) (by decide)).1⟩

/-! ## Claim C3 -/

/-- Prompt resolution as run by the program (`loadConfig` then
`resolvePromptWithSource`) against the spec-level precedence: values always
agree, and provenance agrees except that the program reports the config file
where the spec expects "built-in default". -/
theorem prompt_resolution_agrees (cli : String) (env : Env) (cfgFile : Option Config) :
    (resolvePromptWithSource cli env (loadConfig cfgFile)).1 = (resolvePromptSpec cli env cfgFile).1 ∧
    ((resolvePromptWithSource cli env (loadConfig cfgFile)).2 = (resolvePromptSpec cli env cfgFile).2 ∨
      ((resolvePromptSpec cli env cfgFile).2 = "built-in default" ∧
       (resolvePromptWithSource cli env (loadConfig cfgFile)).2 = "~/.config/fortunebot/config.json" ∧
       (resolvePromptWithSource cli env (loadConfig cfgFile)).1 = defaultPrompt)) := by
  cases cfgFile with
  | none =>
    by_cases h1 : isBlank cli <;> by_cases h2 : env.fortunebotPrompt = "" <;>
      simp [resolvePromptWithSource, resolvePromptSpec, loadConfig, h1, h2,
        defaultPrompt_not_blank]
  | some c =>
    by_cases h1 : isBlank cli <;> by_cases h2 : env.fortunebotPrompt = "" <;>
      by_cases h3 : c.defaultPrompt = "" <;> by_cases h4 : isBlank c.defaultPrompt <;>
      simp_all [resolvePromptWithSource, resolvePromptSpec, loadConfig,
        defaultPrompt_not_blank, isBlank_empty]

/-- Model resolution as run by the program against the spec-level precedence:
values always agree, and provenance agrees except that the program reports
the config file where the spec expects "built-in default". -/
theorem model_resolution_agrees (cli : String) (env : Env) (cfgFile : Option Config) :
    (resolveModelWithSource cli env (loadConfig cfgFile)).1 = (resolveModelSpec cli env cfgFile).1 ∧
    ((resolveModelWithSource cli env (loadConfig cfgFile)).2 = (resolveModelSpec cli env cfgFile).2 ∨
      ((resolveModelSpec cli env cfgFile).2 = "built-in default" ∧
       (resolveModelWithSource cli env (loadConfig cfgFile)).2 = "~/.config/fortunebot/config.json" ∧
       (resolveModelWithSource cli env (loadConfig cfgFile)).1 = defaultModel)) := by
  cases cfgFile with
  | none =>
    by_cases h1 : isBlank cli <;> by_cases h2 : env.fortunebotModel = "" <;>
      by_cases h3 : env.openaiModel = "" <;>
      simp [resolveModelWithSource, resolveModelSpec, loadConfig, h1, h2, h3,
        defaultModel_not_blank]
  | some c =>
    by_cases h1 : isBlank cli <;> by_cases h2 : env.fortunebotModel = "" <;>
      by_cases h3 : env.openaiModel = "" <;> by_cases h4 : c.model = "" <;>
      by_cases h5 : isBlank c.model <;>
      simp_all [resolveModelWithSource, resolveModelSpec, loadConfig,
        defaultModel_not_blank, isBlank_empty]

/-- API-key resolution as run by the program agrees with the spec-level
precedence exactly, value and provenance (`loadConfig` never backfills the
key). -/
theorem apiKey_resolution_agrees (cli : String) (env : Env) (cfgFile : Option Config) :
    resolveAPIKeyWithSource cli env (loadConfig cfgFile) = resolveAPIKeySpec cli env cfgFile := by
  cases cfgFile with
  | none =>
    by_cases h1 : isBlank cli <;> by_cases h2 : env.fortunebotApiKey = "" <;>
      by_cases h3 : env.openaiApiKey = "" <;>
      simp [resolveAPIKeyWithSource, resolveAPIKeySpec, loadConfig, h1, h2, h3, isBlank_empty]
  | some c =>
    by_cases h1 : isBlank cli <;> by_cases h2 : env.fortunebotApiKey = "" <;>
      by_cases h3 : env.openaiApiKey = "" <;> by_cases h4 : isBlank c.apiKey <;>
      simp [resolveAPIKeyWithSource, resolveAPIKeySpec, loadConfig, h1, h2, h3, h4]

/-- Counterexample to C3: with no flag, no environment variable and no config
file, the resolved prompt is the built-in default but the program's
provenance names the config file, not "built-in default" as the claim
states. -/
theorem resolution_provenance_counterexample :
    (resolvePromptWithSource "" emptyEnv (loadConfig none)).1 = defaultPrompt ∧
    (resolvePromptWithSource "" emptyEnv (loadConfig none)).2 = "~/.config/fortunebot/config.json" ∧
    (resolvePromptSpec "" emptyEnv none).2 = "built-in default" ∧
    (resolvePromptWithSource "" emptyEnv (loadConfig none)).2 ≠ (resolvePromptSpec "" emptyEnv none).2 := by
  refine ⟨rfl, rfl, rfl, by decide⟩

/-- Claim C3, amended: resolution follows the claimed precedence for the
resolved values of prompt, model and API key, never fails, and the API key's
provenance is exactly as claimed (in particular "none found" when all key
sources are absent); however, because `loadConfig` backfills an absent
prompt/model with the built-in defaults before resolution, when no flag,
environment variable or config file supplies prompt or model the resolved
value is the built-in default but the provenance names the config file
rather than the built-in default. -/
theorem resolution_precedence_amended (cliP cliK cliM : String) (env : Env)
    (cfgFile : Option Config) :
    ((resolvePromptWithSource cliP env (loadConfig cfgFile)).1 = (resolvePromptSpec cliP env cfgFile).1 ∧
     (resolveModelWithSource cliM env (loadConfig cfgFile)).1 = (resolveModelSpec cliM env cfgFile).1 ∧
     resolveAPIKeyWithSource cliK env (loadConfig cfgFile) = resolveAPIKeySpec cliK env cfgFile) ∧
    ((resolvePromptWithSource cliP env (loadConfig cfgFile)).2 = (resolvePromptSpec cliP env cfgFile).2 ∨
      ((resolvePromptSpec cliP env cfgFile).2 = "built-in default" ∧
       (resolvePromptWithSource cliP env (loadConfig cfgFile)).2 = "~/.config/fortunebot/config.json" ∧
       (resolvePromptWithSource cliP env (loadConfig cfgFile)).1 = defaultPrompt)) ∧
    ((resolveModelWithSource cliM env (loadConfig cfgFile)).2 = (resolveModelSpec cliM env cfgFile).2 ∨
      ((resolveModelSpec cliM env cfgFile).2 = "built-in default" ∧
       (resolveModelWithSource cliM env (loadConfig cfgFile)).2 = "~/.config/fortunebot/config.json" ∧
       (resolveModelWithSource cliM env (loadConfig cfgFile)).1 = defaultModel)) :=
  ⟨⟨(prompt_resolution_agrees cliP env cfgFile).1,
    (model_resolution_agrees cliM env cfgFile).1,
    apiKey_resolution_agrees cliK env cfgFile⟩,
   (prompt_resolution_agrees cliP env cfgFile).2,
   (model_resolution_agrees cliM env cfgFile).2⟩

/-! ## Claim C7 -/

/-- Claim C7: with an empty API key, `generateFortune` fails with the no-key
error and makes no network call; consequently, when all four key sources are
absent and caching is disabled, the normal-mode run makes no network call and
exits 1 with the no-key message. -/
theorem noKey_no_network :
    (∀ (prompt model : String) (net : NetOutcome),
      generateFortune prompt "" model net = (.error "no API key provided", false)) ∧
    (∀ (fl : Flags) (env : Env) (cfgFile : Option Config) (w : World)
      (nowSec frac : Int) (net : NetOutcome),
      isBlank fl.apiKey = true → env.fortunebotApiKey = "" → env.openaiApiKey = "" →
      isBlank (loadConfig cfgFile).apiKey = true →
      (fl.noCache = true ∨ fl.cacheTTL ≤ 0) →
      (runNormalMode fl env cfgFile w nowSec frac net).netCall = false ∧
      (runNormalMode fl env cfgFile w nowSec frac net).exitCode = 1 ∧
      (runNormalMode fl env cfgFile w nowSec frac net).errored = some "no API key provided") := by
  constructor
  · intro prompt model net
    simp [generateFortune]
  · intro fl env cfgFile w nowSec frac net h1 h2 h3 h4 h5
    have hkey : (resolveAPIKeyWithSource fl.apiKey env (loadConfig cfgFile)).1 = "" := by
      simp [resolveAPIKeyWithSource, h1, h2, h3, h4]
    have hc : (!fl.noCache && decide (0 < fl.cacheTTL)) = false := by
      rcases h5 with h | h
      · simp [h]
      · simp
        omega
    simp only [runNormalMode, hc, Bool.false_eq_true, if_false, hkey]
    simp [generateFortune]

/-- Witness for C7: no key anywhere and caching disabled yields exit 1 with
the no-key message and no network activity. -/
theorem noKey_no_network_witness :
    generateFortune "p" "" "m" (.failure "x") = (.error "no API key provided", false) ∧
    (runNormalMode { noCache := true } emptyEnv none ⟨none, none⟩ 0 0 (.failure "x")).netCall = false ∧
    (runNormalMode { noCache := true } emptyEnv none ⟨none, none⟩ 0 0 (.failure "x")).exitCode = 1 ∧
    (runNormalMode { noCache := true } emptyEnv none ⟨none, none⟩ 0 0 (.failure "x")).errored
      = some "no API key provided" :=
  ⟨noKey_no_network.1 "p" "m" (.failure "x"),
   noKey_no_network.2 { noCache := true } emptyEnv none ⟨none, none⟩ 0 0 (.failure "x")
     (by decide) rfl rfl (by decide) (Or.inl rfl)⟩

/-! ## Claim C8 -/

/-- Claim C8: log-random mode fails with exit 1 when the log file is absent
or yields no parseable entry; otherwise it exits 0 and prints the parsed
entry selected by the random index; and for a log holding exactly the single
entry written by `logFortune "Hello"` at second 1000 (the line
`"1000\t"` followed by `"Hello"`), it prints "Hello" and exits 0 whatever
the random draw. -/
theorem logRandom_sampling (pick : Nat) (content : String) :
    runLogRandomMode none pick = (1, none) ∧
    (parseLogFortunes content = [] → runLogRandomMode (some content) pick = (1, none)) ∧
    (∀ h : parseLogFortunes content ≠ [],
      runLogRandomMode (some content) pick =
        (0, some ((parseLogFortunes content).get
          ⟨pick % (parseLogFortunes content).length,
           Nat.mod_lt _ (List.length_pos.mpr h)⟩))) ∧
    runLogRandomMode (logFortune "Hello" 1000 none) pick = (0, some "Hello") := by
  refine ⟨rfl, ?_, ?_, ?_⟩
  · intro h
    simp [runLogRandomMode, randomFortuneFromLog, h]
  · intro h
    simp [runLogRandomMode, randomFortuneFromLog, h]
  · have hl : logFortune "Hello" 1000 none = some "1000\tHello\n" := rfl
    have hp : parseLogFortunes "1000\tHello\n" = ["Hello"] := rfl
    rw [hl]
    simp [runLogRandomMode, randomFortuneFromLog, hp]

/-- Witness for C8: a tabless log yields not-found; the single-entry log
prints its one entry. -/
theorem logRandom_sampling_witness :
    runLogRandomMode (some "no tab here") 3 = (1, none) ∧
    runLogRandomMode (some "1000\tHello\n") 7 =
      (0, some ((parseLogFortunes "1000\tHello\n").get
        ⟨7 % (parseLogFortunes "1000\tHello\n").length, by decide⟩)) :=
  ⟨(logRandom_sampling 3 "no tab here").2.1 (by decide),
   (logRandom_sampling 7 "1000\tHello\n").2.2.1 (by decide)⟩

/-! ## Claim C1 -/

/-- Counterexample to C1: with caching disabled (`--no-cache`) and a
successful fetch, the run exits 0 and prints and logs the fortune, but the
cache file stays untouched and no background worker is spawned — the claim's
"saves it to the Cache Store" and "spawns a background worker" both fail,
because `main` guards both the save and the spawn behind `caching`. -/
theorem cachingDisabled_counterexample :
    (runNormalMode { noCache := true, apiKey := "k" } emptyEnv none ⟨none, none⟩ 1000 0
        (.response 200 "" "Hi")).exitCode = 0 ∧
    (runNormalMode { noCache := true, apiKey := "k" } emptyEnv none ⟨none, none⟩ 1000 0
        (.response 200 "" "Hi")).stdoutFortune = some "🤖 Hi" ∧
    (runNormalMode { noCache := true, apiKey := "k" } emptyEnv none ⟨none, none⟩ 1000 0
        (.response 200 "" "Hi")).world.cacheFile = none ∧
    (runNormalMode { noCache := true, apiKey := "k" } emptyEnv none ⟨none, none⟩ 1000 0
        (.response 200 "" "Hi")).spawned = none := by
  refine ⟨rfl, rfl, rfl, rfl⟩

/-- Claim C1, amended: in normal mode with caching disabled (no-cache set or
ttl not greater than 0), a successful synchronous fetch appends the fortune
to the Log Store and prints it; it does not save to the Cache Store and does
not spawn a background worker (both are guarded behind caching being
enabled), regardless of the no-prefetch flag. -/
theorem cachingDisabled_fetch_amended (fl : Flags) (env : Env) (cfgFile : Option Config)
    (w : World) (nowSec frac : Int) (net : NetOutcome) (fortune : String) (called : Bool)
    (hdis : fl.noCache = true ∨ fl.cacheTTL ≤ 0)
    (hok : generateFortune (resolvePromptWithSource fl.prompt env (loadConfig cfgFile)).1
        (resolveAPIKeyWithSource fl.apiKey env (loadConfig cfgFile)).1
        (resolveModelWithSource fl.model env (loadConfig cfgFile)).1 net
        = (.ok fortune, called)) :
    (runNormalMode fl env cfgFile w nowSec frac net).exitCode = 0 ∧
    (runNormalMode fl env cfgFile w nowSec frac net).stdoutFortune = some fortune ∧
    (runNormalMode fl env cfgFile w nowSec frac net).world.logFile
      = logFortune fortune nowSec w.logFile ∧
    (runNormalMode fl env cfgFile w nowSec frac net).world.cacheFile
      = (if fl.clearCache then none else w.cacheFile) ∧
    (runNormalMode fl env cfgFile w nowSec frac net).spawned = none ∧
    (runNormalMode fl env cfgFile w nowSec frac net).syncFetch = true := by
  have hc : (!fl.noCache && decide (0 < fl.cacheTTL)) = false := by
    rcases hdis with h | h
    · simp [h]
    · simp
      omega
  simp [runNormalMode, hc, hok]

/-- Witness for C1 (amended) at a concrete disabled-cache run with a
successful fetch. -/
theorem cachingDisabled_fetch_amended_witness :
    (runNormalMode { noCache := true, apiKey := "k" } emptyEnv none ⟨some ⟨"old", 5⟩, some "L\n"⟩
        1000 0 (.response 200 "" "Hi")).world.cacheFile = some ⟨"old", 5⟩ ∧
    (runNormalMode { noCache := true, apiKey := "k" } emptyEnv none ⟨some ⟨"old", 5⟩, some "L\n"⟩
        1000 0 (.response 200 "" "Hi")).spawned = none :=
  ⟨((cachingDisabled_fetch_amended { noCache := true, apiKey := "k" } emptyEnv none
      ⟨some ⟨"old", 5⟩, some "L\n"⟩ 1000 0 (.response 200 "" "Hi") "🤖 Hi" true
      (Or.inl rfl) rfl).2.2.2.1),
   ((cachingDisabled_fetch_amended { noCache := true, apiKey := "k" } emptyEnv none
      ⟨some ⟨"old", 5⟩, some "L\n"⟩ 1000 0 (.response 200 "" "Hi") "🤖 Hi" true
      (Or.inl rfl) rfl).2.2.2.2.1)⟩

/-! ## Claim C2 -/

/-- Claim C2: with caching enabled, whenever the cache loads successfully the
run prints the cached fortune, leaves both files untouched, spawns a
background worker with the resolved prompt/key/model unless no-prefetch is
set, and exits 0 without invoking the generation client synchronously or
touching the network — for every clock reading, so a fresh and a stale entry
take exactly the same actions. -/
theorem cacheHit_actions (fl : Flags) (env : Env) (cfgFile : Option Config) (w : World)
    (nowSec frac : Int) (net : NetOutcome) (c : FortuneCache)
    (hnc : fl.noCache = false) (httl : 0 < fl.cacheTTL)
    (hload : loadCache (if fl.clearCache then none else w.cacheFile) = some c) :
    (runNormalMode fl env cfgFile w nowSec frac net).exitCode = 0 ∧
    (runNormalMode fl env cfgFile w nowSec frac net).stdoutFortune = some c.fortune ∧
    (runNormalMode fl env cfgFile w nowSec frac net).world.cacheFile
      = (if fl.clearCache then none else w.cacheFile) ∧
    (runNormalMode fl env cfgFile w nowSec frac net).world.logFile = w.logFile ∧
    (runNormalMode fl env cfgFile w nowSec frac net).spawned
      = (if fl.noPrefetch then none else
          some ⟨(resolvePromptWithSource fl.prompt env (loadConfig cfgFile)).1,
                (resolveAPIKeyWithSource fl.apiKey env (loadConfig cfgFile)).1,
                (resolveModelWithSource fl.model env (loadConfig cfgFile)).1⟩) ∧
    (runNormalMode fl env cfgFile w nowSec frac net).syncFetch = false ∧
    (runNormalMode fl env cfgFile w nowSec frac net).netCall = false := by
  have hc : (!fl.noCache && decide (0 < fl.cacheTTL)) = true := by
    simp [hnc, httl]
  by_cases hf : cacheIsFresh c fl.cacheTTL (nowSec * nsPerSecond + frac) = true
  · simp [runNormalMode, hc, hload, hf, prefetchSpawn]
  · simp [runNormalMode, hc, hload, hf, prefetchSpawn]

/-- Witness for C2: a cache entry 3900 s old against a 60 s TTL (stale) is
printed, both files stay untouched, a worker is spawned, and no network call
is made even though the oracle would fail. -/
theorem cacheHit_actions_witness :
    (runNormalMode {} emptyEnv none ⟨some ⟨"cached", 100⟩, some "L\n"⟩ 4000 0
        (.failure "down")).exitCode = 0 ∧
    (runNormalMode {} emptyEnv none ⟨some ⟨"cached", 100⟩, some "L\n"⟩ 4000 0
        (.failure "down")).stdoutFortune = some "cached" ∧
    (runNormalMode {} emptyEnv none ⟨some ⟨"cached", 100⟩, some "L\n"⟩ 4000 0
        (.failure "down")).netCall = false :=
  ⟨(cacheHit_actions {} emptyEnv none ⟨some ⟨"cached", 100⟩, some "L\n"⟩ 4000 0
      (.failure "down") ⟨"cached", 100⟩ rfl (by decide) (by decide)).1,
   (cacheHit_actions {} emptyEnv none ⟨some ⟨"cached", 100⟩, some "L\n"⟩ 4000 0
      (.failure "down") ⟨"cached", 100⟩ rfl (by decide) (by decide)).2.1,
   (cacheHit_actions {} emptyEnv none ⟨some ⟨"cached", 100⟩, some "L\n"⟩ 4000 0
      (.failure "down") ⟨"cached", 100⟩ rfl (by decide) (by decide)).2.2.2.2.2.2⟩

/-! ## Claim C6 -/

/-- Claim C6: on any fetch failure, the foreground normal-mode run (reaching
the synchronous fetch because caching is disabled or the cache missed)
reports the error, exits 1, spawns nothing, and leaves cache and log files
untouched; and the prefetch worker exits 1 leaving the on-disk state exactly
as it was. -/
theorem fetchFailure_writes_nothing :
    (∀ (fl : Flags) (env : Env) (cfgFile : Option Config) (w : World)
      (nowSec frac : Int) (net : NetOutcome) (e : String) (called : Bool),
      generateFortune (resolvePromptWithSource fl.prompt env (loadConfig cfgFile)).1
          (resolveAPIKeyWithSource fl.apiKey env (loadConfig cfgFile)).1
          (resolveModelWithSource fl.model env (loadConfig cfgFile)).1 net
          = (.error e, called) →
      ((fl.noCache = true ∨ fl.cacheTTL ≤ 0) ∨
        loadCache (if fl.clearCache then none else w.cacheFile) = none) →
      (runNormalMode fl env cfgFile w nowSec frac net).exitCode = 1 ∧
      (runNormalMode fl env cfgFile w nowSec frac net).errored = some e ∧
      (runNormalMode fl env cfgFile w nowSec frac net).stdoutFortune = none ∧
      (runNormalMode fl env cfgFile w nowSec frac net).world.cacheFile
        = (if fl.clearCache then none else w.cacheFile) ∧
      (runNormalMode fl env cfgFile w nowSec frac net).world.logFile = w.logFile ∧
      (runNormalMode fl env cfgFile w nowSec frac net).spawned = none) ∧
    (∀ (prompt apiKey model : String) (nowSec : Int) (net : NetOutcome) (w : World)
      (e : String) (called : Bool),
      generateFortune prompt apiKey model net = (.error e, called) →
      runPrefetchWorker prompt apiKey model nowSec net w = (1, w)) := by
  constructor
  · intro fl env cfgFile w nowSec frac net e called herr hmiss
    by_cases hc : (!fl.noCache && decide (0 < fl.cacheTTL)) = true
    · have hload : loadCache (if fl.clearCache then none else w.cacheFile) = none := by
        rcases hmiss with hdis | hload
        · exfalso
          rcases hdis with h | h <;> simp [h] at hc
          omega
        · exact hload
      simp [runNormalMode, hc, hload, herr]
    · simp only [Bool.not_eq_true] at hc
      simp [runNormalMode, hc, herr]
  · intro prompt apiKey model nowSec net w e called herr
    simp [runPrefetchWorker, herr]

/-- Witness for C6: a failing fetch with caching disabled leaves the prior
cache and log intact in the foreground, and the worker exits 1 without
touching the state. -/
theorem fetchFailure_writes_nothing_witness :
    (runNormalMode { noCache := true, apiKey := "k" } emptyEnv none
        ⟨some ⟨"old", 5⟩, some "L\n"⟩ 0 0 (.failure "boom")).exitCode = 1 ∧
    (runNormalMode { noCache := true, apiKey := "k" } emptyEnv none
        ⟨some ⟨"old", 5⟩, some "L\n"⟩ 0 0 (.failure "boom")).world.logFile = some "L\n" ∧
    runPrefetchWorker "p" "k" "m" 0 (.failure "boom") ⟨none, some "L\n"⟩
      = (1, ⟨none, some "L\n"⟩) :=
  ⟨(fetchFailure_writes_nothing.1 { noCache := true, apiKey := "k" } emptyEnv none
      ⟨some ⟨"old", 5⟩, some "L\n"⟩ 0 0 (.failure "boom") "boom" true rfl (Or.inl (Or.inl rfl))).1,
   (fetchFailure_writes_nothing.1 { noCache := true, apiKey := "k" } emptyEnv none
      ⟨some ⟨"old", 5⟩, some "L\n"⟩ 0 0 (.failure "boom") "boom" true rfl
      (Or.inl (Or.inl rfl))).2.2.2.2.1,
   fetchFailure_writes_nothing.2 "p" "k" "m" 0 (.failure "boom") ⟨none, some "L\n"⟩ "boom" true rfl⟩

end Fortunebot
